import Mathlib

/-
Shallow embedding of the cache-augmented RAG query pipeline of the
Fabric-Conf-2024-Build-AI-Apps notebooks.

Two notebooks are modelled:
  * `AzureCosmosDBforNoSQL/cosmos-nosql-demos.ipynb` — movie chatbot with a
    semantic cache (the functions `generate_embeddings`, `vector_search`,
    `get_chat_history`, `generate_completion`, `cache_response`, `get_cache`
    and the second, effective, definition of `chat_completion`).
  * `cosmos-demos.ipynb` — Mongo vCore Q&A loop (`vector_search`,
    `get_conversation_history`, `generate_completion`, `cache_generation`
    and the interactive while-loop body).

Modelling conventions:
  * Embedding vectors are lists of rationals (`Vec`); similarity scores are
    rationals.  The similarity metric itself (the database server computes
    `VectorDistance`, resp. the `cosmosSearch` `searchScore`) is an abstract
    parameter `sim : Vec → Vec → ℚ` — higher means more similar, matching the
    cosine-similarity configuration used by the notebooks.
  * In Azure Cosmos DB for NoSQL, `ORDER BY VectorDistance(c.vector, @e)`
    returns rows most-similar-first; ties are returned in an order the server
    does not specify.  The model uses a stable insertion sort on the
    more-similar-or-equal relation, a deterministic refinement of that
    behaviour.  Likewise `sort([("_id", -1)])` and `ORDER BY c._ts DESC`
    become stable descending sorts on the stored key.
  * The external collaborators (Embedding Provider, Completion Provider) and
    the success of the cache insert are supplied through an environment
    record; the per-request count of Completion Provider invocations and the
    cache collection state after the call are returned explicitly so that
    call-count and side-effect properties can be stated.
  * Python exceptions become `Except` / an explicit error outcome; the
    dynamically typed document fields that the notebooks store through
    `str(...)` are modelled with a small JSON-scalar type `JValue` so that
    the stored representation (string versus number) is visible.
-/

namespace FabricRag

/-- An embedding vector: a list of rational coordinates. -/
abbrev Vec := List ℚ

/-- A JSON-like scalar value, used for document fields whose runtime type is
decided by the Python code (the token-count fields are built with `str(...)`,
so the stored value is a string, not a number). -/
inductive JValue where
  | jstr : String → JValue
  | jnum : Int → JValue
deriving DecidableEq, Repr

/-- A role-tagged chat message, as sent to the Completion Provider. -/
structure Message where
  role : String
  content : String
deriving DecidableEq, Repr

/-- Token usage metadata of a completion response (`response["usage"]`). -/
structure Usage where
  completion_tokens : Nat
  prompt_tokens : Nat
  total_tokens : Nat
deriving DecidableEq, Repr

/-- The part of a chat-completion response the notebooks read:
`response["choices"][0]["message"]["content"]`, `response["usage"]` and
`response["model"]`. -/
structure Response where
  content : String
  usage : Usage
  model : String
deriving DecidableEq, Repr

/-- A document of the movies container, restricted to the fields the queries
touch: the `overview` text and the stored embedding `vector`. -/
structure MovieDoc where
  overview : String
  vector : Vec
deriving DecidableEq, Repr

/-- The projection produced by `SELECT TOP @num_results c.overview, ...`:
everything of the row except the popped score, i.e. the `overview` field. -/
structure ProjectedMovie where
  overview : String
deriving DecidableEq, Repr

/-- One formatted result of the NoSQL `vector_search`:
`{"SimilarityScore": score, "document": result}`. -/
structure SearchHit where
  SimilarityScore : ℚ
  document : ProjectedMovie
deriving DecidableEq, Repr

/-- A cache document as built by `cache_response` and stored in the cache
container.  `ts` models the server-assigned `_ts` creation timestamp (epoch
seconds) that `get_chat_history` orders by; the three token fields keep the
`JValue` representation chosen by the Python code. -/
structure CacheDoc where
  id : String
  prompt : String
  completion : String
  completionTokens : JValue
  promptTokens : JValue
  totalTokens : JValue
  model : String
  vector : Vec
  ts : Nat
deriving DecidableEq, Repr

/-- Per-request pipeline errors: the Embedding Provider raising, and the
cache insert (`container.create_item`) raising. -/
inductive PipelineError where
  | EmbeddingError
  | CacheWriteError
deriving DecidableEq, Repr

/-- The environment of one `chat_completion` request: the database similarity
metric, the two external providers, the fresh id and server timestamp the
insert would use, and whether the cache insert succeeds. -/
structure Env where
  sim : Vec → Vec → ℚ
  embed : String → Except PipelineError Vec
  llm : List Message → Response
  newId : String
  ts : Nat
  writeOk : Bool

/-- Observable result of one `chat_completion` request: the outcome
delivered to the caller (answer text and cached flag, or a raised error),
the cache collection state after the call, and how many times the
Completion Provider was invoked during the call. -/
structure RunResult where
  outcome : Except PipelineError (String × Bool)
  cacheAfter : List CacheDoc
  llmCalls : Nat

/-- The cache-hit similarity threshold: `chat_completion` probes the cache
with `similarity_score=0.99`.  Written as the reduced fraction 99/100 so
that comparisons against it compute. -/
def cache_hit_threshold : ℚ := ⟨99, 100, by decide, by decide⟩

/-- The context-search similarity threshold: the default
`similarity_score=0.02` of `vector_search`.  Written as the reduced
fraction 1/50 so that comparisons against it compute. -/
def context_search_threshold : ℚ := ⟨1, 50, by decide, by decide⟩

/-- The default `num_results=5` of `vector_search`. -/
def vector_search_num_results : Nat := 5

/-- The `json.dumps` of a projected movie document, as placed in a grounding
message by `generate_completion`. -/
def json_dumps (d : ProjectedMovie) : String :=
  "\x7b\"overview\": \"" ++ d.overview ++ "\"\x7d"

/-- NoSQL `vector_search(container, vectors, similarity_score, num_results)`:
`SELECT TOP @num_results c.overview, VectorDistance(c.vector, @embedding) as
SimilarityScore FROM c WHERE VectorDistance(c.vector, @embedding) >
@similarity_score ORDER BY VectorDistance(c.vector, @embedding)` — rows with
similarity strictly above the threshold, most-similar-first, at most
`num_results`, each formatted as a `SearchHit`. -/
def vector_search (sim : Vec → Vec → ℚ) (container : List MovieDoc) (vectors : Vec)
    (similarity_score : ℚ) (num_results : Nat) : List SearchHit :=
  let scored := container.map fun d => SearchHit.mk (sim vectors d.vector) ⟨d.overview⟩
  let filtered := scored.filter fun r => similarity_score < r.SimilarityScore
  (List.insertionSort (fun a b => b.SimilarityScore ≤ a.SimilarityScore) filtered).take num_results

/-- NoSQL `get_chat_history(container, completions)`:
`SELECT TOP @completions * FROM c ORDER BY c._ts DESC`. -/
def get_chat_history (container : List CacheDoc) (completions : Nat) : List CacheDoc :=
  (List.insertionSort (fun a b => b.ts ≤ a.ts) container).take completions

/-- The fixed system instruction block of the NoSQL `generate_completion`. -/
def system_prompt : String :=
  "\n    You are an intelligent assistant for movies. You are designed to provide helpful answers to user questions about movies in your database.\n    You are friendly, helpful, and informative and can be lighthearted. Be concise in your responses, but still friendly.\n        - Only answer questions related to the information provided below. Provide at least 3 candidate movie answers in a list.\n        - Write two lines of whitespace between each answer in the list.\n    "

/-- Message assembly of the NoSQL `generate_completion`: start from the
system prompt, append one user message per chat-history entry
(`chat["prompt"] + \" \" + chat["completion"]`), append the user prompt,
then append one system message per vector-search result
(`json.dumps(result["document"])`), in the order of the sequential
sequential `messages.append` calls. -/
def generate_completion_messages (user_prompt : String)
    (vector_search_results : List SearchHit) (chat_history : List CacheDoc) : List Message :=
  let messages := [Message.mk "system" system_prompt]
  let messages := chat_history.foldl
    (fun ms chat => ms ++ [Message.mk "user" (chat.prompt ++ " " ++ chat.completion)]) messages
  let messages := messages ++ [Message.mk "user" user_prompt]
  let messages := vector_search_results.foldl
    (fun ms r => ms ++ [Message.mk "system" (json_dumps r.document)]) messages
  messages

/-- NoSQL `generate_completion`: assemble the messages and invoke the
Completion Provider on them. -/
def generate_completion (env : Env) (user_prompt : String)
    (vector_search_results : List SearchHit) (chat_history : List CacheDoc) : Response :=
  env.llm (generate_completion_messages user_prompt vector_search_results chat_history)

/-- NoSQL `cache_response(container, user_prompt, prompt_vectors, response)`:
the chat document inserted into the cache container.  The token counts are
stored through Python `str(...)`, hence as `JValue.jstr` of the decimal
representation; `newId` models `str(uuid.uuid4())` and `ts` the
server-assigned `_ts` of the created item. -/
def cache_response (newId : String) (ts : Nat) (user_prompt : String)
    (prompt_vectors : Vec) (response : Response) : CacheDoc :=
  { id := newId
    prompt := user_prompt
    completion := response.content
    completionTokens := JValue.jstr (toString response.usage.completion_tokens)
    promptTokens := JValue.jstr (toString response.usage.prompt_tokens)
    totalTokens := JValue.jstr (toString response.usage.total_tokens)
    model := response.model
    vector := prompt_vectors
    ts := ts }

/-- NoSQL `get_cache(container, vectors, similarity_score, num_results)`:
`SELECT TOP @num_results * FROM c WHERE VectorDistance(c.vector, @embedding)
> @similarity_score ORDER BY VectorDistance(c.vector, @embedding)` — whole
cache documents with similarity strictly above the threshold,
most-similar-first, at most `num_results`. -/
def get_cache (sim : Vec → Vec → ℚ) (container : List CacheDoc) (vectors : Vec)
    (similarity_score : ℚ) (num_results : Nat) : List CacheDoc :=
  let filtered := container.filter fun d => similarity_score < sim vectors d.vector
  (List.insertionSort (fun a b => sim vectors b.vector ≤ sim vectors a.vector) filtered).take num_results

/-- The second (effective) NoSQL `chat_completion(cache_container,
movies_container, user_input)`: embed the input; probe the cache with
`get_cache(..., similarity_score=0.99, num_results=1)`; on a hit return the
stored completion flagged cached without touching the Completion Provider;
on a miss run `vector_search` (defaults 0.02 / 5) on the movies container,
fetch 3 history entries, generate a completion, insert it into the cache via
`cache_response` (which can fail, and the source has no handler around it),
and return the generated text flagged not cached. -/
def chat_completion (env : Env) (cache_container : List CacheDoc)
    (movies_container : List MovieDoc) (user_input : String) : RunResult :=
  match env.embed user_input with
  | Except.error e => { outcome := Except.error e, cacheAfter := cache_container, llmCalls := 0 }
  | Except.ok user_embeddings =>
    match get_cache env.sim cache_container user_embeddings cache_hit_threshold 1 with
    | r :: _ =>
      { outcome := Except.ok (r.completion, true), cacheAfter := cache_container, llmCalls := 0 }
    | [] =>
      let search_results :=
        vector_search env.sim movies_container user_embeddings
          context_search_threshold vector_search_num_results
      let chat_history := get_chat_history cache_container 3
      let completions_results := generate_completion env user_input search_results chat_history
      if env.writeOk then
        { outcome := Except.ok (completions_results.content, false)
          cacheAfter := cache_container ++
            [cache_response env.newId env.ts user_input user_embeddings completions_results]
          llmCalls := 1 }
      else
        { outcome := Except.error PipelineError.CacheWriteError
          cacheAfter := cache_container
          llmCalls := 1 }

/-- A document of the Mongo vCore primary collection, restricted to the
fields the pipeline touches: the `content` text used as grounding and the
stored embedding `contentVector`. -/
structure MongoDoc where
  content : String
  contentVector : Vec
deriving DecidableEq, Repr

/-- One result of the Mongo vCore `vector_search` `$project` stage:
`{"similarityScore": {"$meta": "searchScore"}, "document": "$$ROOT"}`. -/
structure MongoHit where
  similarityScore : ℚ
  document : MongoDoc
deriving DecidableEq, Repr

/-- A cache document as built by `cache_generation` and stored in the Mongo
cache collection.  `oid` models the `_id` assigned by `insert_one` (Mongo
ObjectIds sort by insertion order); the token fields keep the `str(...)`
representation chosen by the Python code. -/
structure MongoCacheDoc where
  oid : Nat
  prompt : String
  completion : String
  completionTokens : JValue
  promptTokens : JValue
  totalTokens : JValue
  model : String
  vectorContent : Vec
deriving DecidableEq, Repr

/-- The projection `{\"prompt\": 1, \"completion\": 1}` used by
`get_conversation_history` (plus the `_id` the sort key rides on). -/
structure HistoryItem where
  oid : Nat
  prompt : String
  completion : String
deriving DecidableEq, Repr

/-- Environment of one Mongo vCore Q&A loop iteration: similarity metric of
the `cosmosSearch` index, the two providers, and the `_id` that `insert_one`
assigns.  The loop body has no error handling, so the providers are total
here. -/
structure MongoEnv where
  sim : Vec → Vec → ℚ
  embed : String → Vec
  llm : List Message → Response
  newOid : Nat

/-- Observable result of one Mongo vCore Q&A loop iteration: the completion
text printed to the user, the cache collection afterwards, and how many
times the Completion Provider was invoked. -/
structure MongoStepResult where
  printed : String
  cacheAfter : List MongoCacheDoc
  llmCalls : Nat
deriving Repr

/-- Mongo vCore `vector_search(query, num_results)`: the `$search` /
`cosmosSearch` aggregation returning the `k = num_results` nearest documents
with their `searchScore`, most-similar-first (no threshold filter). -/
def mongo_vector_search (sim : Vec → Vec → ℚ) (collection : List MongoDoc)
    (query_embedding : Vec) (num_results : Nat) : List MongoHit :=
  let scored := collection.map fun d => MongoHit.mk (sim query_embedding d.contentVector) d
  (List.insertionSort (fun a b => b.similarityScore ≤ a.similarityScore) scored).take num_results

/-- Mongo vCore `get_conversation_history(completions)`:
`cache.find({}, {"prompt": 1, "completion": 1}).sort([("_id", -1)])
.limit(completions)`. -/
def get_conversation_history (cache : List MongoCacheDoc) (completions : Nat) : List HistoryItem :=
  let projected := cache.map fun d => HistoryItem.mk d.oid d.prompt d.completion
  (List.insertionSort (fun a b => b.oid ≤ a.oid) projected).take completions

/-- The fixed system instruction block of the Mongo vCore
`generate_completion`. -/
def mongo_system_prompt : String :=
  "\n    You are an intelligent assistant for Microsoft Azure services.\n    You are designed to provide helpful answers to user questions about Azure services given the information about to be provided.\n        - Only answer questions related to the information provided below, provide 3 clear suggestions in a list format.\n        - Write two lines of whitespace between each answer in the list.\n        - Only provide answers that have products that are part of Microsoft Azure and based on the content items.\n        - If you\x27re unsure of an answer, you can say \"\"I don\x27t know\"\" or \"\"I\x27m not sure\"\" and recommend users search themselves.\"\n    "

/-- Message assembly of the Mongo vCore `generate_completion`: the system
prompt, one system message per conversation-history entry fetched by
`get_conversation_history(3)` from the cache, the user prompt, then one
system message per vector-search result (`item["document"]["content"]`), in
the order of the sequential `messages.append` calls of the source. -/
def mongo_generate_completion_messages (cache : List MongoCacheDoc)
    (vector_search_results : List MongoHit) (user_prompt : String) : List Message :=
  let messages := [Message.mk "system" mongo_system_prompt]
  let messages := (get_conversation_history cache 3).foldl
    (fun ms item => ms ++ [Message.mk "system" (item.prompt ++ " " ++ item.completion)]) messages
  let messages := messages ++ [Message.mk "user" user_prompt]
  let messages := vector_search_results.foldl
    (fun ms item => ms ++ [Message.mk "system" item.document.content]) messages
  messages

/-- Mongo vCore `cache_generation(user_prompt, user_embeddings, response)`:
`insert_one` of the chat document — token counts through `str(...)`, the
embedding under `vectorContent`, the `_id` assigned by the driver. -/
def cache_generation (newOid : Nat) (user_prompt : String) (user_embeddings : Vec)
    (response : Response) (cache : List MongoCacheDoc) : List MongoCacheDoc :=
  cache ++
    [{ oid := newOid
       prompt := user_prompt
       completion := response.content
       completionTokens := JValue.jstr (toString response.usage.completion_tokens)
       promptTokens := JValue.jstr (toString response.usage.prompt_tokens)
       totalTokens := JValue.jstr (toString response.usage.total_tokens)
       model := response.model
       vectorContent := user_embeddings }]

/-- The body of the Mongo vCore interactive Q&A while-loop, for one user
input: embed the input, `vector_search` the primary collection (default
`num_results=3`), generate a completion (which reads the cache only through
`get_conversation_history`), print it, and `cache_generation` the exchange.
There is no cache probe before generation and no branch that skips the
Completion Provider. -/
def qa_loop_step (env : MongoEnv) (collection : List MongoDoc)
    (cache : List MongoCacheDoc) (user_input : String) : MongoStepResult :=
  let user_embeddings := env.embed user_input
  let search_results := mongo_vector_search env.sim collection user_embeddings 3
  let completions_results :=
    env.llm (mongo_generate_completion_messages cache search_results user_input)
  { printed := completions_results.content
    cacheAfter := cache_generation env.newOid user_input user_embeddings completions_results cache
    llmCalls := 1 }

/-- Sanity check: the modelled cache-hit threshold is the source literal
`0.99`. -/
theorem cache_hit_threshold_eq : cache_hit_threshold = 0.99 := by
  rw [cache_hit_threshold, Rat.mk'_eq_divInt]
  norm_num [Rat.divInt_eq_div]

/-- Sanity check: the modelled context-search threshold is the source
literal `0.02`. -/
theorem context_search_threshold_eq : context_search_threshold = 0.02 := by
  rw [context_search_threshold, Rat.mk'_eq_divInt]
  norm_num [Rat.divInt_eq_div]

/-- Folding `append one element` over a list, as the for-loops of the notebooks
over `messages.append(...)` do, is appending the mapped list. -/
theorem foldl_append_singleton {α β : Type} (f : β → α) (l : List β) (acc : List α) :
    l.foldl (fun ms x => ms ++ [f x]) acc = acc ++ l.map f := by
  induction l generalizing acc with
  | nil => simp
  | cons x xs ih => simp [ih, List.append_assoc]

/-- A stable descending insertion sort by a rational key is pairwise
non-increasing in that key. -/
theorem sorted_insertionSort_key {α : Type} (key : α → ℚ) (l : List α) :
    (List.insertionSort (fun a b => key b ≤ key a) l).Pairwise
      (fun a b => key b ≤ key a) := by
  haveI : IsTotal α (fun a b => key b ≤ key a) := ⟨fun a b => le_total (key b) (key a)⟩
  haveI : IsTrans α (fun a b => key b ≤ key a) := ⟨fun _ _ _ h h2 => le_trans h2 h⟩
  exact List.sorted_insertionSort _ l

/-- A stable descending insertion sort by a natural-number key is pairwise
non-increasing in that key. -/
theorem sorted_insertionSort_natKey {α : Type} (key : α → Nat) (l : List α) :
    (List.insertionSort (fun a b => key b ≤ key a) l).Pairwise
      (fun a b => key b ≤ key a) := by
  haveI : IsTotal α (fun a b => key b ≤ key a) := ⟨fun a b => Nat.le_total (key b) (key a)⟩
  haveI : IsTrans α (fun a b => key b ≤ key a) := ⟨fun _ _ _ h h2 => Nat.le_trans h2 h⟩
  exact List.sorted_insertionSort _ l

/-- Membership in a `get_cache` result implies membership in the container
together with similarity strictly above the threshold. -/
theorem mem_get_cache {sim : Vec → Vec → ℚ} {container : List CacheDoc} {vectors : Vec}
    {similarity_score : ℚ} {num_results : Nat} {r : CacheDoc}
    (h : r ∈ get_cache sim container vectors similarity_score num_results) :
    r ∈ container ∧ similarity_score < sim vectors r.vector := by
  unfold get_cache at h
  have h1 := List.take_subset num_results _ h
  have h2 := (List.perm_insertionSort
    (fun a b => sim vectors b.vector ≤ sim vectors a.vector)
    (container.filter fun d => decide (similarity_score < sim vectors d.vector))).mem_iff.mp h1
  have h3 := List.mem_filter.mp h2
  exact ⟨h3.1, of_decide_eq_true h3.2⟩

/-- If no entry of the container is strictly above the threshold, the
`get_cache` probe comes back empty. -/
theorem get_cache_eq_nil {sim : Vec → Vec → ℚ} {container : List CacheDoc} {vectors : Vec}
    {similarity_score : ℚ} (num_results : Nat)
    (h : ∀ e ∈ container, ¬ similarity_score < sim vectors e.vector) :
    get_cache sim container vectors similarity_score num_results = [] := by
  unfold get_cache
  have hf : (container.filter fun d => decide (similarity_score < sim vectors d.vector)) = [] := by
    rw [List.filter_eq_nil_iff]
    intro e he
    simpa using h e he
  rw [hf]
  simp [List.insertionSort]

/-- If some entry of the container is strictly above the threshold, a
`get_cache` probe asking for at least one row comes back nonempty. -/
theorem get_cache_ne_nil {sim : Vec → Vec → ℚ} {container : List CacheDoc} {vectors : Vec}
    {similarity_score : ℚ} {num_results : Nat} (hn : 0 < num_results)
    (h : ∃ e ∈ container, similarity_score < sim vectors e.vector) :
    get_cache sim container vectors similarity_score num_results ≠ [] := by
  unfold get_cache
  obtain ⟨e, he, hsim⟩ := h
  have hf : e ∈ container.filter fun d => decide (similarity_score < sim vectors d.vector) :=
    List.mem_filter.mpr ⟨he, decide_eq_true hsim⟩
  have hs : e ∈ List.insertionSort
      (fun a b => sim vectors b.vector ≤ sim vectors a.vector)
      (container.filter fun d => decide (similarity_score < sim vectors d.vector)) :=
    (List.perm_insertionSort _ _).mem_iff.mpr hf
  intro hc
  have hlen := congrArg List.length hc
  rw [List.length_take] at hlen
  simp only [List.length_nil] at hlen
  rcases Nat.min_eq_zero_iff.mp hlen with h0 | h0
  · omega
  · exact absurd (List.length_eq_zero.mp h0 ▸ hs) (List.not_mem_nil e)

/-- Concrete completion response used by witnesses. -/
def respW : Response :=
  { content := "generated"
    usage := { completion_tokens := 1, prompt_tokens := 2, total_tokens := 3 }
    model := "gpt" }

/-- Concrete cache document whose stored vector matches witness queries. -/
def cacheHitDoc : CacheDoc :=
  { id := "h", prompt := "q", completion := "cached answer"
    completionTokens := JValue.jstr "1", promptTokens := JValue.jstr "2"
    totalTokens := JValue.jstr "3", model := "gpt", vector := [1], ts := 1 }

/-- Concrete environment where every probe scores similarity 1 (a hit). -/
def envHit : Env :=
  { sim := fun _ _ => 1, embed := fun _ => Except.ok [1], llm := fun _ => respW
    newId := "n", ts := 2, writeOk := true }

/-- Concrete environment where every probe scores similarity 0 (a miss) and
the cache insert succeeds. -/
def envWriteOk : Env :=
  { sim := fun _ _ => 0, embed := fun _ => Except.ok [1], llm := fun _ => respW
    newId := "n", ts := 2, writeOk := true }

/-- Same environment as `envWriteOk` except that the cache insert fails. -/
def envWriteFail : Env := { envWriteOk with writeOk := false }

/-- Concrete environment whose Embedding Provider raises on the empty
string. -/
def envEmbedFail : Env :=
  { sim := fun _ _ => 0
    embed := fun s => if s = "" then Except.error PipelineError.EmbeddingError else Except.ok [1]
    llm := fun _ => respW, newId := "n", ts := 2, writeOk := true }

/-- Concrete cache document with creation timestamp 5. -/
def cacheDocA : CacheDoc :=
  { id := "a", prompt := "p1", completion := "c1"
    completionTokens := JValue.jstr "1", promptTokens := JValue.jstr "1"
    totalTokens := JValue.jstr "2", model := "m", vector := [1], ts := 5 }

/-- Concrete cache document sharing the creation timestamp of `cacheDocA`. -/
def cacheDocB : CacheDoc :=
  { id := "b", prompt := "p2", completion := "c2"
    completionTokens := JValue.jstr "1", promptTokens := JValue.jstr "1"
    totalTokens := JValue.jstr "2", model := "m", vector := [2], ts := 5 }

/-- C4: for every vector query — both ContextSearch (`vector_search`) and
CacheLookup (`get_cache`) — the returned list is ordered by similarity score
descending: the similarity scores across the returned list are
non-increasing, the most similar entry first. -/
theorem vector_queries_sorted_desc :
    ∀ (sim : Vec → Vec → ℚ) (movies : List MovieDoc) (cache : List CacheDoc)
      (v : Vec) (t : ℚ) (n : Nat),
      (vector_search sim movies v t n).Pairwise
        (fun a b => b.SimilarityScore ≤ a.SimilarityScore) ∧
      (get_cache sim cache v t n).Pairwise
        (fun a b => sim v b.vector ≤ sim v a.vector) := by
  intro sim movies cache v t n
  constructor
  · have h := sorted_insertionSort_key (fun h : SearchHit => h.SimilarityScore)
      ((movies.map fun d => SearchHit.mk (sim v d.vector) ⟨d.overview⟩).filter
        fun r => decide (t < r.SimilarityScore))
    exact h.sublist (List.take_sublist n _)
  · have h := sorted_insertionSort_key (fun d : CacheDoc => sim v d.vector)
      (cache.filter fun d => decide (t < sim v d.vector))
    exact h.sublist (List.take_sublist n _)

/-- C8 (amended): history retrieval (`get_chat_history` and
`get_conversation_history`) returns at most N entries ordered by
non-increasing creation key (`_ts`, resp. `_id`), newest first; the order is
not strict when two entries share the key. -/
theorem history_retrieval_bounded_sorted :
    ∀ (cache : List CacheDoc) (mcache : List MongoCacheDoc) (n : Nat),
      (get_chat_history cache n).length ≤ n ∧
      (get_chat_history cache n).Pairwise (fun a b => b.ts ≤ a.ts) ∧
      (get_conversation_history mcache n).length ≤ n ∧
      (get_conversation_history mcache n).Pairwise (fun a b => b.oid ≤ a.oid) := by
  intro cache mcache n
  refine ⟨List.length_take_le n _, ?_, List.length_take_le n _, ?_⟩
  · exact (sorted_insertionSort_natKey (fun d : CacheDoc => d.ts) cache).sublist
      (List.take_sublist n _)
  · exact (sorted_insertionSort_natKey (fun d : HistoryItem => d.oid)
      (mcache.map fun d => HistoryItem.mk d.oid d.prompt d.completion)).sublist
      (List.take_sublist n _)

/-- C8 (counterexample): with two cache entries sharing the creation
timestamp `_ts = 5`, `get_chat_history` cannot return them in strictly
descending creation order, so the claim as stated fails on this input. -/
theorem history_retrieval_strict_counterexample :
    ¬ ((get_chat_history [cacheDocA, cacheDocB] 3).length ≤ 3 ∧
       (get_chat_history [cacheDocA, cacheDocB] 3).Pairwise (fun a b => b.ts < a.ts)) := by
  decide

/-- C7: `generate_completion` assembles the message list sent to the
Completion Provider in exactly this order: the fixed system instruction
block first, then one message per conversation-history entry, then the
current user query, then one message per retrieved context document — so
the live user query precedes the grounding content.  The first conjuncts
settle the NoSQL notebook, including the take/drop decomposition putting
the user query strictly before every grounding message; the last conjunct
settles the Mongo vCore notebook. -/
theorem completion_message_order :
    ∀ (env : Env) (up : String) (vsr : List SearchHit) (hist : List CacheDoc)
      (cache : List MongoCacheDoc) (mvsr : List MongoHit),
      generate_completion env up vsr hist =
        env.llm (generate_completion_messages up vsr hist) ∧
      generate_completion_messages up vsr hist =
        Message.mk "system" system_prompt ::
          (hist.map (fun chat => Message.mk "user" (chat.prompt ++ " " ++ chat.completion)) ++
            (Message.mk "user" up ::
              vsr.map (fun r => Message.mk "system" (json_dumps r.document)))) ∧
      (generate_completion_messages up vsr hist).take (hist.length + 2) =
        Message.mk "system" system_prompt ::
          (hist.map (fun chat => Message.mk "user" (chat.prompt ++ " " ++ chat.completion)) ++
            [Message.mk "user" up]) ∧
      (generate_completion_messages up vsr hist).drop (hist.length + 2) =
        vsr.map (fun r => Message.mk "system" (json_dumps r.document)) ∧
      mongo_generate_completion_messages cache mvsr up =
        Message.mk "system" mongo_system_prompt ::
          ((get_conversation_history cache 3).map
              (fun item => Message.mk "system" (item.prompt ++ " " ++ item.completion)) ++
            (Message.mk "user" up ::
              mvsr.map (fun item => Message.mk "system" item.document.content))) := by
  intro env up vsr hist cache mvsr
  have hmain : generate_completion_messages up vsr hist =
      (Message.mk "system" system_prompt ::
        (hist.map (fun chat => Message.mk "user" (chat.prompt ++ " " ++ chat.completion)) ++
          [Message.mk "user" up])) ++
        vsr.map (fun r => Message.mk "system" (json_dumps r.document)) := by
    simp [generate_completion_messages, foldl_append_singleton]
  have hlen : (Message.mk "system" system_prompt ::
      (hist.map (fun chat => Message.mk "user" (chat.prompt ++ " " ++ chat.completion)) ++
        [Message.mk "user" up])).length = hist.length + 2 := by
    simp
  refine ⟨rfl, ?_, ?_, ?_, ?_⟩
  · rw [hmain]; simp
  · rw [hmain, ← hlen, List.take_left]
  · rw [hmain, ← hlen, List.drop_left]
  · simp [mongo_generate_completion_messages, foldl_append_singleton]

/-- C10: every iteration of the Mongo vCore interactive Q&A loop invokes the
Completion Provider exactly once and appends exactly one new cache entry,
whatever the cache contains; in particular, immediately re-issuing the same
question still generates afresh and appends a second entry, since the cache
is read only as conversation history and never probed for a semantic hit. -/
theorem mongo_loop_always_generates :
    ∀ (env env2 : MongoEnv) (collection : List MongoDoc) (cache : List MongoCacheDoc)
      (user_input : String),
      ((qa_loop_step env collection cache user_input).llmCalls = 1 ∧
        ∃ doc, (qa_loop_step env collection cache user_input).cacheAfter = cache ++ [doc] ∧
          doc.prompt = user_input ∧ doc.vectorContent = env.embed user_input) ∧
      (qa_loop_step env2 collection
          (qa_loop_step env collection cache user_input).cacheAfter user_input).llmCalls = 1 ∧
      (qa_loop_step env2 collection
          (qa_loop_step env collection cache user_input).cacheAfter user_input).cacheAfter.length
        = cache.length + 2 := by
  intro env env2 collection cache user_input
  refine ⟨⟨rfl, ?_⟩, rfl, ?_⟩
  · exact ⟨_, rfl, rfl, rfl⟩
  · simp [qa_loop_step, cache_generation]

/-- C5 (amended): every CachedExchange written to the cache — by
`cache_response` in the NoSQL notebook and by `cache_generation` in the
Mongo vCore notebook — stores its promptTokens, completionTokens and
totalTokens fields as decimal-string representations (Python `str(...)`) of
the non-negative token counts of the provider, not as integer-typed fields. -/
theorem token_fields_stored_as_strings :
    ∀ (newId : String) (ts : Nat) (up : String) (pv : Vec) (r : Response)
      (oid : Nat) (ue : Vec) (mcache : List MongoCacheDoc),
      (cache_response newId ts up pv r).promptTokens =
        JValue.jstr (toString r.usage.prompt_tokens) ∧
      (cache_response newId ts up pv r).completionTokens =
        JValue.jstr (toString r.usage.completion_tokens) ∧
      (cache_response newId ts up pv r).totalTokens =
        JValue.jstr (toString r.usage.total_tokens) ∧
      cache_generation oid up ue r mcache = mcache ++
        [{ oid := oid
           prompt := up
           completion := r.content
           completionTokens := JValue.jstr (toString r.usage.completion_tokens)
           promptTokens := JValue.jstr (toString r.usage.prompt_tokens)
           totalTokens := JValue.jstr (toString r.usage.total_tokens)
           model := r.model
           vectorContent := ue }] := by
  intro newId ts up pv r oid ue mcache
  exact ⟨rfl, rfl, rfl, rfl⟩

/-- C5 (counterexample): at a concrete response whose usage counts are 2, 3
and 5, the stored promptTokens field of the written cache document is not an
integer-typed value of any non-negative integer — it is the string "2" —
so the claim that the token fields are stored as non-negative integers
fails. -/
theorem token_fields_integer_counterexample :
    ¬ ∃ n : Int, 0 ≤ n ∧
        (cache_response "id0" 7 "a prompt" [1] respW).promptTokens = JValue.jnum n := by
  rintro ⟨n, -, h⟩
  exact JValue.noConfusion h

/-- C1: for every query whose embedding matches a previously stored cache
entry above the cache-hit threshold, `chat_completion` returns the entry stored
stored completion text with the cached flag true, leaves the cache
unchanged, and never invokes the Completion Provider on that request. -/
theorem cache_hit_short_circuits (env : Env) (cache : List CacheDoc)
    (movies : List MovieDoc) (user_input : String) (v : Vec)
    (hembed : env.embed user_input = Except.ok v)
    (hhit : ∃ e ∈ cache, cache_hit_threshold < env.sim v e.vector) :
    (chat_completion env cache movies user_input).llmCalls = 0 ∧
    (chat_completion env cache movies user_input).cacheAfter = cache ∧
    ∃ e ∈ cache, cache_hit_threshold < env.sim v e.vector ∧
      (chat_completion env cache movies user_input).outcome =
        Except.ok (e.completion, true) := by
  have hne := get_cache_ne_nil (Nat.zero_lt_one) hhit
  obtain ⟨r, rs, hq⟩ := List.exists_cons_of_ne_nil hne
  have hr : r ∈ get_cache env.sim cache v cache_hit_threshold 1 := by
    rw [hq]; exact List.mem_cons_self r rs
  obtain ⟨hrc, hrsim⟩ := mem_get_cache hr
  have hcc : chat_completion env cache movies user_input =
      { outcome := Except.ok (r.completion, true), cacheAfter := cache, llmCalls := 0 } := by
    simp [chat_completion, hembed, hq]
  rw [hcc]
  exact ⟨rfl, rfl, r, hrc, hrsim, rfl⟩

/-- C1 witness: in `envHit` with the single stored exchange `cacheHitDoc`,
the probe scores 1 > 0.99, so the pipeline serves the cached answer without
generating. -/
theorem cache_hit_short_circuits_witness :
    envHit.embed "q" = Except.ok [1] ∧
    (∃ e ∈ [cacheHitDoc], cache_hit_threshold < envHit.sim [1] e.vector) ∧
    ((chat_completion envHit [cacheHitDoc] [] "q").llmCalls = 0 ∧
     (chat_completion envHit [cacheHitDoc] [] "q").cacheAfter = [cacheHitDoc] ∧
     ∃ e ∈ [cacheHitDoc], cache_hit_threshold < envHit.sim [1] e.vector ∧
       (chat_completion envHit [cacheHitDoc] [] "q").outcome =
         Except.ok (e.completion, true)) :=
  ⟨rfl, by decide,
    cache_hit_short_circuits envHit [cacheHitDoc] [] "q" [1] rfl (by decide)⟩

/-- C2: for every query with no cache hit (and a succeeding insert, the only
case in which the unguarded source code returns at all), `chat_completion`
invokes the Completion Provider exactly once and appends exactly one new
CachedExchange whose prompt equals the raw input text and whose stored
vector equals the query embedding computed in step 1, and returns the
generated completion text with the cached flag false. -/
theorem cache_miss_generates_and_caches (env : Env) (cache : List CacheDoc)
    (movies : List MovieDoc) (user_input : String) (v : Vec)
    (hembed : env.embed user_input = Except.ok v)
    (hmiss : ∀ e ∈ cache, ¬ cache_hit_threshold < env.sim v e.vector)
    (hwrite : env.writeOk = true) :
    (chat_completion env cache movies user_input).llmCalls = 1 ∧
    ∃ doc : CacheDoc,
      (chat_completion env cache movies user_input).cacheAfter = cache ++ [doc] ∧
      doc.prompt = user_input ∧
      doc.vector = v ∧
      doc.completion = (generate_completion env user_input
        (vector_search env.sim movies v context_search_threshold vector_search_num_results)
        (get_chat_history cache 3)).content ∧
      (chat_completion env cache movies user_input).outcome =
        Except.ok (doc.completion, false) := by
  have hq := get_cache_eq_nil 1 hmiss
  have hcc : chat_completion env cache movies user_input =
      { outcome := Except.ok ((generate_completion env user_input
            (vector_search env.sim movies v context_search_threshold vector_search_num_results)
            (get_chat_history cache 3)).content, false)
        cacheAfter := cache ++ [cache_response env.newId env.ts user_input v
          (generate_completion env user_input
            (vector_search env.sim movies v context_search_threshold vector_search_num_results)
            (get_chat_history cache 3))]
        llmCalls := 1 } := by
    simp [chat_completion, hembed, hq, hwrite]
  rw [hcc]
  exact ⟨rfl, ⟨_, rfl, rfl, rfl, rfl, rfl⟩⟩

/-- C2 witness: in `envWriteOk` with an empty cache, the probe misses, one
completion is generated and one exchange with the prompt and
embedding is appended. -/
theorem cache_miss_generates_and_caches_witness :
    envWriteOk.embed "q" = Except.ok [1] ∧
    (∀ e ∈ ([] : List CacheDoc), ¬ cache_hit_threshold < envWriteOk.sim [1] e.vector) ∧
    envWriteOk.writeOk = true ∧
    ((chat_completion envWriteOk [] [] "q").llmCalls = 1 ∧
     ∃ doc : CacheDoc,
       (chat_completion envWriteOk [] [] "q").cacheAfter = [] ++ [doc] ∧
       doc.prompt = "q" ∧
       doc.vector = [1] ∧
       doc.completion = (generate_completion envWriteOk "q"
         (vector_search envWriteOk.sim [] [1] context_search_threshold vector_search_num_results)
         (get_chat_history [] 3)).content ∧
       (chat_completion envWriteOk [] [] "q").outcome =
         Except.ok (doc.completion, false)) :=
  ⟨rfl, by decide, rfl,
    cache_miss_generates_and_caches envWriteOk [] [] "q" [1] rfl (by decide) rfl⟩

/-- C3 (amended): if the cache insert performed after a successful
completion fails, `chat_completion` does not deliver the generated answer
at all — the write is not fire-and-forget: the unguarded
`cache_response` call lets the error escape, the request fails with
`CacheWriteError`, and nothing is persisted. -/
theorem cache_write_failure_fails_request (env : Env) (cache : List CacheDoc)
    (movies : List MovieDoc) (user_input : String) (v : Vec)
    (hembed : env.embed user_input = Except.ok v)
    (hmiss : ∀ e ∈ cache, ¬ cache_hit_threshold < env.sim v e.vector)
    (hwrite : env.writeOk = false) :
    chat_completion env cache movies user_input =
      { outcome := Except.error PipelineError.CacheWriteError
        cacheAfter := cache
        llmCalls := 1 } := by
  have hq := get_cache_eq_nil 1 hmiss
  simp [chat_completion, hembed, hq, hwrite]

/-- C3 amended-claim witness: in `envWriteFail` with an empty cache, the
request ends in `CacheWriteError` instead of returning the generated
text. -/
theorem cache_write_failure_fails_request_witness :
    envWriteFail.embed "q" = Except.ok [1] ∧
    (∀ e ∈ ([] : List CacheDoc), ¬ cache_hit_threshold < envWriteFail.sim [1] e.vector) ∧
    envWriteFail.writeOk = false ∧
    chat_completion envWriteFail [] [] "q" =
      { outcome := Except.error PipelineError.CacheWriteError
        cacheAfter := []
        llmCalls := 1 } :=
  ⟨rfl, by decide, rfl,
    cache_write_failure_fails_request envWriteFail [] [] "q" [1] rfl (by decide) rfl⟩

/-- C3 (counterexample): with the same empty cache and the same providers,
the outcome delivered to the caller when the cache write fails is the error,
not the answer that the succeeding-write run delivers — refuting the claim
that the delivered text and cached flag are unchanged by the write
failure. -/
theorem cache_write_failure_changes_outcome :
    (chat_completion envWriteFail [] [] "q").outcome =
      Except.error PipelineError.CacheWriteError ∧
    (chat_completion envWriteOk [] [] "q").outcome = Except.ok ("generated", false) ∧
    (chat_completion envWriteFail [] [] "q").outcome ≠
      (chat_completion envWriteOk [] [] "q").outcome := by
  refine ⟨rfl, rfl, ?_⟩
  intro h
  rw [show (chat_completion envWriteFail [] [] "q").outcome =
        Except.error PipelineError.CacheWriteError from rfl,
      show (chat_completion envWriteOk [] [] "q").outcome =
        Except.ok ("generated", false) from rfl] at h
  exact Except.noConfusion h

/-- C9: if the embedding step fails, `chat_completion` aborts with that
error, the Completion Provider is never invoked, and the cache collection is
left unchanged by the failed request. -/
theorem embedding_failure_aborts (env : Env) (cache : List CacheDoc)
    (movies : List MovieDoc) (user_input : String) (err : PipelineError)
    (hembed : env.embed user_input = Except.error err) :
    chat_completion env cache movies user_input =
      { outcome := Except.error err, cacheAfter := cache, llmCalls := 0 } := by
  simp only [chat_completion, hembed]

/-- C9 witness: in `envEmbedFail` the Embedding Provider raises on the empty
string, and the request on a nonempty cache aborts with `EmbeddingError`
leaving the cache as it was. -/
theorem embedding_failure_aborts_witness :
    envEmbedFail.embed "" = Except.error PipelineError.EmbeddingError ∧
    chat_completion envEmbedFail [cacheHitDoc] [] "" =
      { outcome := Except.error PipelineError.EmbeddingError
        cacheAfter := [cacheHitDoc]
        llmCalls := 0 } :=
  ⟨rfl, embedding_failure_aborts envEmbedFail [cacheHitDoc] [] "" PipelineError.EmbeddingError rfl⟩

/-- C6: a cached answer is served only when the similarity of some stored entry
to the query embedding strictly exceeds the high cache-hit threshold 0.99
used by the pipeline, and that threshold is higher than the loose
context-search threshold 0.02 used against the primary store — an entry
whose similarity does not exceed the cache threshold is never served as a
cached answer. -/
theorem cache_hit_needs_high_similarity :
    (∀ (env : Env) (cache : List CacheDoc) (movies : List MovieDoc)
       (user_input answer : String),
       (chat_completion env cache movies user_input).outcome = Except.ok (answer, true) →
       ∃ v, env.embed user_input = Except.ok v ∧
         ∃ e ∈ cache, cache_hit_threshold < env.sim v e.vector ∧ answer = e.completion) ∧
    context_search_threshold < cache_hit_threshold := by
  constructor
  · intro env cache movies user_input answer h
    cases hembed : env.embed user_input with
    | error e =>
      have hcc : chat_completion env cache movies user_input =
          { outcome := Except.error e, cacheAfter := cache, llmCalls := 0 } := by
        simp [chat_completion, hembed]
      rw [hcc] at h
      exact absurd h (by simp)
    | ok v =>
      refine ⟨v, rfl, ?_⟩
      cases hq : get_cache env.sim cache v cache_hit_threshold 1 with
      | nil =>
        by_cases hw : env.writeOk
        · have hcc : (chat_completion env cache movies user_input).outcome =
              Except.ok ((generate_completion env user_input
                (vector_search env.sim movies v context_search_threshold vector_search_num_results)
                (get_chat_history cache 3)).content, false) := by
            simp [chat_completion, hembed, hq, hw]
          rw [hcc] at h
          simp at h
        · have hcc : (chat_completion env cache movies user_input).outcome =
              Except.error PipelineError.CacheWriteError := by
            simp [chat_completion, hembed, hq, hw]
          rw [hcc] at h
          exact absurd h (by simp)
      | cons r rs =>
        have hcc : (chat_completion env cache movies user_input).outcome =
            Except.ok (r.completion, true) := by
          simp [chat_completion, hembed, hq]
        rw [hcc] at h
        have hr : r ∈ get_cache env.sim cache v cache_hit_threshold 1 := by
          rw [hq]; exact List.mem_cons_self r rs
        obtain ⟨hrc, hrsim⟩ := mem_get_cache hr
        have heq : r.completion = answer := by
          have := (Except.ok.injEq _ _).mp h
          exact congrArg Prod.fst this
        exact ⟨r, hrc, hrsim, heq.symm⟩
  · decide

/-- C6 witness: the `envHit` run serves a cached answer, and the stored
entry it came from indeed scores above 0.99. -/
theorem cache_hit_needs_high_similarity_witness :
    (chat_completion envHit [cacheHitDoc] [] "q").outcome =
      Except.ok ("cached answer", true) ∧
    ∃ v, envHit.embed "q" = Except.ok v ∧
      ∃ e ∈ [cacheHitDoc], cache_hit_threshold < envHit.sim v e.vector ∧
        "cached answer" = e.completion :=
  ⟨rfl, cache_hit_needs_high_similarity.1 envHit [cacheHitDoc] [] "q" "cached answer" rfl⟩

end FabricRag
